import Mathlib

set_option maxHeartbeats 1000000

/-!
Shallow embedding of the workout CRUD controller
(src/controllers/workoutController.js) together with its document store.

The store is a list of `Workout` documents; each HTTP handler is a pure
function from the store state and the request data to the new store state
and an HTTP response.  Store-assigned data (the fresh ObjectId for a new
document and the creation timestamp) are explicit parameters of the
handlers that need them.
-/

/-- A hexadecimal character, as accepted by the MongoDB ObjectId parser. -/
def isHexChar (c : Char) : Bool :=
  c.isDigit || ('a' ≤ c && c ≤ 'f') || ('A' ≤ c && c ≤ 'F')

/-- `mongoose.Types.ObjectId.isValid`: a string is accepted when it consists
of 24 hexadecimal characters, or when it has length 12 (twelve raw bytes). -/
def ObjectId.isValid (s : String) : Bool :=
  (s.length == 24 && s.toList.all isHexChar) || s.length == 12

/-- A persisted workout document: the three schema fields `title`, `reps`,
`load`, plus the store-assigned identifier `_id` and creation timestamp
`createdAt`. -/
structure Workout where
  _id : String
  title : String
  reps : Int
  load : Int
  createdAt : Nat
deriving Repr, DecidableEq

/-- The document store: the `workouts` collection. -/
abbrev Store := List Workout

/-- A JSON request body.  The controller reads `title`, `reps` and `load`;
any other field that a client sends is kept in `extra` so that we can state
that the handlers never look at it. -/
structure ReqBody where
  title : Option String
  reps : Option Int
  load : Option Int
  extra : List (String × String)
deriving Repr, DecidableEq

/-- A JSON response body: a single document, an array of documents, or an
error object `{ error: msg }`. -/
inductive ResBody where
  | record : Workout → ResBody
  | records : List Workout → ResBody
  | jsonError : String → ResBody
deriving Repr, DecidableEq

/-- An HTTP response: `res.status(code).json(body)`. -/
structure Response where
  status : Nat
  body : ResBody
deriving Repr, DecidableEq

/-- The sort key of `Workout.find({}).sort({ createdAt: -1 })`:
descending creation time. -/
def createdDesc (a b : Workout) : Bool :=
  b.createdAt ≤ a.createdAt

/-- `Workout.find({}).sort({ createdAt: -1 })`: every document, ordered by
creation time, most recent first. -/
def dbFind (s : Store) : List Workout :=
  s.mergeSort createdDesc

/-- `Workout.findById(id)`: the first document whose `_id` equals `id`. -/
def dbFindById (s : Store) (id : String) : Option Workout :=
  s.find? (fun w => w._id == id)

/-- Modelled from the spec: the `Workout` mongoose model
(`models/workoutModel.js`, not present in the sources) declares `title`,
`reps` and `load` as required fields and uses store-assigned timestamps.
`Workout.create` therefore fails with a validation error when a required
field is missing, and otherwise inserts a new document carrying a fresh
store-assigned identifier and the creation timestamp. -/
def dbCreate (s : Store) (title : Option String) (load : Option Int)
    (reps : Option Int) (newId : String) (now : Nat) :
    Except String (Workout × Store) :=
  match title, reps, load with
  | some t, some r, some l =>
      let w : Workout := ⟨newId, t, r, l, now⟩
      .ok (w, s ++ [w])
  | _, _, _ => .error "Workout validation failed"

/-- `Workout.findOneAndDelete({ _id: id })`: remove the first document whose
`_id` equals `id`, returning the removed document, or `none` when no
document matches (the store is then unchanged). -/
def dbFindOneAndDelete (s : Store) (id : String) : Option Workout × Store :=
  match s.find? (fun w => w._id == id) with
  | some w => (some w, s.eraseP (fun w => w._id == id))
  | none => (none, s)

/-- Apply an update body to a document: each field present in the body
replaces the document's field; absent fields are left untouched.  Mongoose
runs the update in strict mode, so non-schema fields in the body are
dropped and `_id`/`createdAt` are untouched. -/
def applyUpdate (w : Workout) (b : ReqBody) : Workout :=
  { w with
    title := b.title.getD w.title
    reps := b.reps.getD w.reps
    load := b.load.getD w.load }

/-- Replace the first document whose `_id` equals `id` by its updated
version, leaving all other documents as they are. -/
def updateFirst (s : Store) (id : String) (b : ReqBody) : Store :=
  match s with
  | [] => []
  | w :: rest =>
      if w._id == id then applyUpdate w b :: rest
      else w :: updateFirst rest id b

/-- `Workout.findOneAndUpdate({ _id: id }, { ...req.body }, { new: true })`:
update the first document whose `_id` equals `id` with the fields of the
body and return the updated document, or `none` when no document matches
(the store is then unchanged). -/
def dbFindOneAndUpdate (s : Store) (id : String) (b : ReqBody) :
    Option Workout × Store :=
  match s.find? (fun w => w._id == id) with
  | some w => (some (applyUpdate w b), updateFirst s id b)
  | none => (none, s)

/-- Handler for `GET /api/workouts`. -/
def getWorkouts (s : Store) : Store × Response :=
  (s, ⟨200, .records (dbFind s)⟩)

/-- Handler for `GET /api/workouts/:id`. -/
def getWorkout (s : Store) (id : String) : Store × Response :=
  if !(ObjectId.isValid id) then
    (s, ⟨404, .jsonError "No such workout"⟩)
  else
    match dbFindById s id with
    | none => (s, ⟨404, .jsonError "No such workout"⟩)
    | some w => (s, ⟨200, .record w⟩)

/-- Handler for `POST /api/workouts`: destructures `title`, `load`, `reps`
from the request body and passes exactly those to `Workout.create`. -/
def createWorkout (s : Store) (b : ReqBody) (newId : String) (now : Nat) :
    Store × Response :=
  match dbCreate s b.title b.load b.reps newId now with
  | .ok (w, s') => (s', ⟨201, .record w⟩)
  | .error msg => (s, ⟨400, .jsonError msg⟩)

/-- Handler for `DELETE /api/workouts/:id`. -/
def deleteWorkout (s : Store) (id : String) : Store × Response :=
  if !(ObjectId.isValid id) then
    (s, ⟨400, .jsonError "No such workout"⟩)
  else
    match dbFindOneAndDelete s id with
    | (none, s') => (s', ⟨400, .jsonError "No such workout"⟩)
    | (some w, s') => (s', ⟨204, .record w⟩)

/-- Handler for `PATCH /api/workouts/:id`. -/
def updateWorkout (s : Store) (id : String) (b : ReqBody) :
    Store × Response :=
  if !(ObjectId.isValid id) then
    (s, ⟨400, .jsonError "No such workout"⟩)
  else
    match dbFindOneAndUpdate s id b with
    | (none, s') => (s', ⟨400, .jsonError "No such workout"⟩)
    | (some w, s') => (s', ⟨200, .record w⟩)

example : ObjectId.isValid "507f1f77bcf86cd799439011" = true := by decide

example : ObjectId.isValid "nope" = false := by decide

example : ObjectId.isValid "twelve-chars" = true := by decide

/-- C1: a create request whose body contains title, reps and load, and whose
persistence succeeds, yields status 201, the returned record's title, reps
and load equal the input fields, and the record carries the store-assigned
identifier. -/
theorem createWorkout_complete_body_created
    (s : Store) (b : ReqBody) (newId : String) (now : Nat)
    (t : String) (r l : Int)
    (ht : b.title = some t) (hr : b.reps = some r) (hl : b.load = some l) :
    (createWorkout s b newId now).2.status = 201 ∧
    (createWorkout s b newId now).2.body = .record ⟨newId, t, r, l, now⟩ := by
  simp [createWorkout, dbCreate, ht, hr, hl]

theorem createWorkout_complete_body_created_witness :
    (createWorkout [] ⟨some "Push ups", some 40, some 5, []⟩ "507f1f77bcf86cd799439011" 7).2.status = 201 ∧
    (createWorkout [] ⟨some "Push ups", some 40, some 5, []⟩ "507f1f77bcf86cd799439011" 7).2.body =
      .record ⟨"507f1f77bcf86cd799439011", "Push ups", 40, 5, 7⟩ :=
  createWorkout_complete_body_created [] ⟨some "Push ups", some 40, some 5, []⟩
    "507f1f77bcf86cd799439011" 7 "Push ups" 40 5 rfl rfl rfl

/-- C2: get-by-id responds 404 with an error payload on a malformed
identifier and on a well-formed identifier with no record, and responds 200
with the record when it exists. -/
theorem getWorkout_spec (s : Store) (id : String) :
    (ObjectId.isValid id = false →
      getWorkout s id = (s, ⟨404, .jsonError "No such workout"⟩)) ∧
    (ObjectId.isValid id = true → dbFindById s id = none →
      getWorkout s id = (s, ⟨404, .jsonError "No such workout"⟩)) ∧
    (∀ w, ObjectId.isValid id = true → dbFindById s id = some w →
      getWorkout s id = (s, ⟨200, .record w⟩)) := by
  refine ⟨?_, ?_, ?_⟩
  · intro h
    simp [getWorkout, h]
  · intro hv hn
    simp [getWorkout, hv, hn]
  · intro w hv hf
    simp [getWorkout, hv, hf]

theorem getWorkout_spec_witness :
    getWorkout [] "nope" = ([], ⟨404, .jsonError "No such workout"⟩) ∧
    getWorkout [] "507f1f77bcf86cd799439011" =
      ([], ⟨404, .jsonError "No such workout"⟩) ∧
    getWorkout [⟨"507f1f77bcf86cd799439011", "Push ups", 40, 5, 7⟩]
        "507f1f77bcf86cd799439011" =
      ([⟨"507f1f77bcf86cd799439011", "Push ups", 40, 5, 7⟩],
       ⟨200, .record ⟨"507f1f77bcf86cd799439011", "Push ups", 40, 5, 7⟩⟩) :=
  ⟨(getWorkout_spec [] "nope").1 (by decide),
   (getWorkout_spec [] "507f1f77bcf86cd799439011").2.1 (by decide) rfl,
   (getWorkout_spec [⟨"507f1f77bcf86cd799439011", "Push ups", 40, 5, 7⟩]
      "507f1f77bcf86cd799439011").2.2
     ⟨"507f1f77bcf86cd799439011", "Push ups", 40, 5, 7⟩ (by decide) (by decide)⟩

/-- C3: on a malformed identifier, and on a well-formed identifier with no
record, delete and update respond 400 while get responds 404 (the documented
inconsistency). -/
theorem delete_update_400_get_404 (s : Store) (id : String) (b : ReqBody)
    (h : ObjectId.isValid id = false ∨ dbFindById s id = none) :
    (deleteWorkout s id).2.status = 400 ∧
    (updateWorkout s id b).2.status = 400 ∧
    (getWorkout s id).2.status = 404 := by
  rcases h with h | h
  · simp [deleteWorkout, updateWorkout, getWorkout, h]
  · by_cases hv : ObjectId.isValid id
    · simp only [dbFindById] at h
      simp [deleteWorkout, updateWorkout, getWorkout, hv,
        dbFindOneAndDelete, dbFindOneAndUpdate, dbFindById, h]
    · simp [deleteWorkout, updateWorkout, getWorkout, hv]

theorem delete_update_400_get_404_witness :
    (deleteWorkout [] "nope").2.status = 400 ∧
    (updateWorkout [] "nope" ⟨none, none, none, []⟩).2.status = 400 ∧
    (getWorkout [] "nope").2.status = 404 :=
  delete_update_400_get_404 [] "nope" ⟨none, none, none, []⟩ (Or.inl (by decide))

/-- C8: the list handler and the get-by-id handler never modify the store. -/
theorem read_handlers_preserve_store (s : Store) (id : String) :
    (getWorkouts s).1 = s ∧ (getWorkout s id).1 = s := by
  refine ⟨rfl, ?_⟩
  unfold getWorkout
  split
  · rfl
  · cases dbFindById s id <;> rfl

/-- C10: the create handler passes only title, load and reps to the store;
two request bodies agreeing on those three fields (whatever other fields
they carry) produce identical outcomes, so extra fields are never
persisted. -/
theorem createWorkout_ignores_extra (s : Store) (b b' : ReqBody)
    (newId : String) (now : Nat)
    (ht : b.title = b'.title) (hr : b.reps = b'.reps) (hl : b.load = b'.load) :
    createWorkout s b newId now = createWorkout s b' newId now := by
  unfold createWorkout
  rw [ht, hr, hl]

theorem createWorkout_ignores_extra_witness :
    createWorkout [] ⟨some "Push ups", some 40, some 5, [("owner", "me")]⟩ "id1" 0 =
    createWorkout [] ⟨some "Push ups", some 40, some 5, []⟩ "id1" 0 :=
  createWorkout_ignores_extra [] ⟨some "Push ups", some 40, some 5, [("owner", "me")]⟩
    ⟨some "Push ups", some 40, some 5, []⟩ "id1" 0 rfl rfl rfl

theorem createdDesc_trans (a b c : Workout) :
    createdDesc a b → createdDesc b c → createdDesc a c := by
  simp only [createdDesc, decide_eq_true_eq]
  omega

theorem createdDesc_total (a b : Workout) :
    createdDesc a b || createdDesc b a := by
  simp only [createdDesc, Bool.or_eq_true, decide_eq_true_eq]
  omega

/-- C4: the list handler responds 200 with an array holding every document
of the store, sorted by creation time in descending order. -/
theorem getWorkouts_sorted (s : Store) :
    (getWorkouts s).2.status = 200 ∧
    (getWorkouts s).2.body = .records (dbFind s) ∧
    (dbFind s).Perm s ∧
    (dbFind s).Pairwise (fun a b => b.createdAt ≤ a.createdAt) := by
  refine ⟨rfl, rfl, List.mergeSort_perm s createdDesc, ?_⟩
  have h := List.sorted_mergeSort createdDesc_trans createdDesc_total s
  exact h.imp (by simp only [createdDesc, decide_eq_true_eq]; exact fun x => x)

/-- C5: a successful partial update replaces exactly the fields provided in
the body, every omitted field (including identifier and creation time)
retains its prior value, and the response is 200 with the updated record. -/
theorem updateWorkout_merges (s : Store) (id : String) (b : ReqBody)
    (w : Workout)
    (hv : ObjectId.isValid id = true) (hf : dbFindById s id = some w) :
    (updateWorkout s id b).2.status = 200 ∧
    (updateWorkout s id b).2.body = .record (applyUpdate w b) ∧
    (∀ t, b.title = some t → (applyUpdate w b).title = t) ∧
    (b.title = none → (applyUpdate w b).title = w.title) ∧
    (∀ r, b.reps = some r → (applyUpdate w b).reps = r) ∧
    (b.reps = none → (applyUpdate w b).reps = w.reps) ∧
    (∀ l, b.load = some l → (applyUpdate w b).load = l) ∧
    (b.load = none → (applyUpdate w b).load = w.load) ∧
    (applyUpdate w b)._id = w._id ∧
    (applyUpdate w b).createdAt = w.createdAt ∧
    (updateWorkout s id b).1 = updateFirst s id b := by
  have hu : dbFindOneAndUpdate s id b = (some (applyUpdate w b), updateFirst s id b) := by
    unfold dbFindOneAndUpdate
    unfold dbFindById at hf
    rw [hf]
  refine ⟨?_, ?_, ?_, ?_, ?_, ?_, ?_, ?_, rfl, rfl, ?_⟩ <;>
    simp [updateWorkout, hv, hu, applyUpdate]
  all_goals first
    | (intro hx heq; simp [heq])
    | (intro hx; simp [hx])

theorem updateWorkout_merges_witness :
    (updateWorkout [⟨"507f1f77bcf86cd799439011", "Push ups", 40, 5, 7⟩]
        "507f1f77bcf86cd799439011" ⟨some "Sit ups", none, none, []⟩).2.status = 200 ∧
    (updateWorkout [⟨"507f1f77bcf86cd799439011", "Push ups", 40, 5, 7⟩]
        "507f1f77bcf86cd799439011" ⟨some "Sit ups", none, none, []⟩).2.body =
      .record (applyUpdate ⟨"507f1f77bcf86cd799439011", "Push ups", 40, 5, 7⟩
        ⟨some "Sit ups", none, none, []⟩) :=
  ⟨(updateWorkout_merges [⟨"507f1f77bcf86cd799439011", "Push ups", 40, 5, 7⟩]
      "507f1f77bcf86cd799439011" ⟨some "Sit ups", none, none, []⟩
      ⟨"507f1f77bcf86cd799439011", "Push ups", 40, 5, 7⟩ (by decide) (by decide)).1,
   (updateWorkout_merges [⟨"507f1f77bcf86cd799439011", "Push ups", 40, 5, 7⟩]
      "507f1f77bcf86cd799439011" ⟨some "Sit ups", none, none, []⟩
      ⟨"507f1f77bcf86cd799439011", "Push ups", 40, 5, 7⟩ (by decide) (by decide)).2.1⟩

/-- C6: whenever the persistence call of create fails, the handler responds
400 with the underlying error message and the store is unchanged. -/
theorem createWorkout_persistence_error (s : Store) (b : ReqBody)
    (newId : String) (now : Nat) (msg : String)
    (h : dbCreate s b.title b.load b.reps newId now = .error msg) :
    createWorkout s b newId now = (s, ⟨400, .jsonError msg⟩) := by
  unfold createWorkout
  rw [h]

theorem createWorkout_persistence_error_witness :
    createWorkout [] ⟨none, some 40, some 5, []⟩ "id1" 0 =
      ([], ⟨400, .jsonError "Workout validation failed"⟩) :=
  createWorkout_persistence_error [] ⟨none, some 40, some 5, []⟩ "id1" 0
    "Workout validation failed" rfl

theorem dbFindById_eraseP_eq_none (s : Store) (id : String)
    (hu : (s.map Workout._id).Nodup) :
    dbFindById (s.eraseP (fun w => w._id == id)) id = none := by
  unfold dbFindById
  induction s with
  | nil => rfl
  | cons w rest ih =>
    simp only [List.map_cons, List.nodup_cons] at hu
    by_cases h : (w._id == id : Bool) = true
    · simp only [List.eraseP_cons, h, cond_true]
      rw [List.find?_eq_none]
      intro x hx
      have hwid : w._id = id := by simpa using h
      simp only [beq_iff_eq]
      intro hxid
      exact hu.1 (List.mem_map.mpr ⟨x, hx, hxid.trans hwid.symm⟩)
    · have h' : (w._id == id : Bool) = false := by simpa using h
      simp only [List.eraseP_cons, h', cond_false]
      rw [List.find?_cons_of_neg _ (by simpa using h)]
      exact ih hu.2

/-- C7: deleting an existing record (in a store with unique identifiers)
removes it and responds 204 with the deleted record, and a subsequent
get-by-id on the same identifier responds 404. -/
theorem deleteWorkout_removes (s : Store) (id : String) (w : Workout)
    (hv : ObjectId.isValid id = true)
    (hf : dbFindById s id = some w)
    (hu : (s.map Workout._id).Nodup) :
    (deleteWorkout s id).2.status = 204 ∧
    (deleteWorkout s id).2.body = .record w ∧
    dbFindById (deleteWorkout s id).1 id = none ∧
    (getWorkout (deleteWorkout s id).1 id).2.status = 404 := by
  have hd : dbFindOneAndDelete s id =
      (some w, s.eraseP (fun x => x._id == id)) := by
    unfold dbFindOneAndDelete
    unfold dbFindById at hf
    rw [hf]
  have hdel : deleteWorkout s id =
      (s.eraseP (fun x => x._id == id), ⟨204, .record w⟩) := by
    simp [deleteWorkout, hv, hd]
  have hnone := dbFindById_eraseP_eq_none s id hu
  rw [hdel]
  exact ⟨rfl, rfl, hnone, by simp [getWorkout, hv, hnone]⟩

theorem deleteWorkout_removes_witness :
    (deleteWorkout [⟨"507f1f77bcf86cd799439011", "Push ups", 40, 5, 7⟩]
      "507f1f77bcf86cd799439011").2.status = 204 ∧
    (deleteWorkout [⟨"507f1f77bcf86cd799439011", "Push ups", 40, 5, 7⟩]
      "507f1f77bcf86cd799439011").2.body =
        .record ⟨"507f1f77bcf86cd799439011", "Push ups", 40, 5, 7⟩ ∧
    dbFindById (deleteWorkout [⟨"507f1f77bcf86cd799439011", "Push ups", 40, 5, 7⟩]
      "507f1f77bcf86cd799439011").1 "507f1f77bcf86cd799439011" = none ∧
    (getWorkout (deleteWorkout [⟨"507f1f77bcf86cd799439011", "Push ups", 40, 5, 7⟩]
      "507f1f77bcf86cd799439011").1 "507f1f77bcf86cd799439011").2.status = 404 :=
  deleteWorkout_removes [⟨"507f1f77bcf86cd799439011", "Push ups", 40, 5, 7⟩]
    "507f1f77bcf86cd799439011" ⟨"507f1f77bcf86cd799439011", "Push ups", 40, 5, 7⟩
    (by decide) (by decide) (by decide)

/-- C9: every request that yields an error response (status 400 or 404)
leaves the store unchanged; the two read handlers never modify it at all. -/
theorem error_responses_preserve_store (s : Store) (id nid : String)
    (b : ReqBody) (now : Nat) :
    (getWorkouts s).1 = s ∧
    (getWorkout s id).1 = s ∧
    ((createWorkout s b nid now).2.status = 400 →
      (createWorkout s b nid now).1 = s) ∧
    ((deleteWorkout s id).2.status = 400 → (deleteWorkout s id).1 = s) ∧
    ((updateWorkout s id b).2.status = 400 → (updateWorkout s id b).1 = s) := by
  refine ⟨rfl, ?_, ?_, ?_, ?_⟩
  · unfold getWorkout
    split
    · rfl
    · cases dbFindById s id <;> rfl
  · cases hc : dbCreate s b.title b.load b.reps nid now with
    | ok p => simp [createWorkout, hc]
    | error m => simp [createWorkout, hc]
  · by_cases hv : ObjectId.isValid id
    · cases hf : s.find? (fun w => w._id == id) with
      | none => simp [deleteWorkout, hv, dbFindOneAndDelete, hf]
      | some w => simp [deleteWorkout, hv, dbFindOneAndDelete, hf]
    · simp [deleteWorkout, hv]
  · by_cases hv : ObjectId.isValid id
    · cases hf : s.find? (fun w => w._id == id) with
      | none => simp [updateWorkout, hv, dbFindOneAndUpdate, hf]
      | some w => simp [updateWorkout, hv, dbFindOneAndUpdate, hf]
    · simp [updateWorkout, hv]

theorem error_responses_preserve_store_witness :
    (createWorkout [] ⟨none, none, none, []⟩ "id1" 0).1 = [] ∧
    (deleteWorkout [] "nope").1 = [] ∧
    (updateWorkout [] "nope" ⟨none, none, none, []⟩).1 = [] :=
  ⟨(error_responses_preserve_store [] "nope" "id1" ⟨none, none, none, []⟩ 0).2.2.1 rfl,
   (error_responses_preserve_store [] "nope" "id1" ⟨none, none, none, []⟩ 0).2.2.2.1 rfl,
   (error_responses_preserve_store [] "nope" "id1" ⟨none, none, none, []⟩ 0).2.2.2.2 rfl⟩
